import Mathlib

/-!
Verification development for `scripts/generate-from-docs.js`: a generator that
turns a list of HTTP endpoint descriptors into MSW mock handlers and
TypeScript type declarations.  The JavaScript functions are shallowly embedded
as executable Lean definitions; machine strings are Lean `String`s and JSON
sample values are an inductive `Json` type (with an `undefined` constructor for
JavaScript's `undefined`, which is what destructuring an absent field yields).
-/

/-- The left-brace character, written via its code point. -/
def lbrace : Char := Char.ofNat 123

/-- The right-brace character, written via its code point. -/
def rbrace : Char := Char.ofNat 125

mutual

/-- JavaScript values as they occur in a parsed JSON specification.
`undefined` models JavaScript `undefined` (e.g. an absent object field). -/
inductive Json where
  | null : Json
  | str : String → Json
  | num : Int → Json
  | bool : Bool → Json
  | arr : JsonList → Json
  | obj : JsonFields → Json
  | undefined : Json

/-- A list of JSON values (the elements of a JSON array, in order). -/
inductive JsonList where
  | nil : JsonList
  | cons : Json → JsonList → JsonList

/-- The own enumerable fields of a JSON object, in enumeration order. -/
inductive JsonFields where
  | nil : JsonFields
  | cons : String → Json → JsonFields → JsonFields

end

/-- JavaScript truthiness of a value: `undefined`, `null`, `false`, `0` and
the empty string are falsy; every object and array is truthy. -/
def Json.truthy : Json → Bool
  | .undefined => false
  | .null => false
  | .bool b => b
  | .num n => n != 0
  | .str s => s != ""
  | .arr _ => true
  | .obj _ => true

/-- `Array.isArray` on a JSON value. -/
def Json.isArr : Json → Bool
  | .arr _ => true
  | _ => false

/-- First binding of a key among an object's fields; `undefined` when absent
(JavaScript property access on an object). -/
def findField : JsonFields → String → Json
  | .nil, _ => .undefined
  | .cons key v tl, k => if key = k then v else findField tl k

/-- JavaScript property access `j[k]` for the values the generator reads
fields from (non-objects yield `undefined`). -/
def getField (j : Json) (k : String) : Json :=
  match j with
  | .obj fs => findField fs k
  | _ => .undefined

/-- ASCII lower-casing of a string, modelling `String.prototype.toLowerCase`
on the ASCII method names the generator handles. -/
def toLowerStr (s : String) : String :=
  String.mk (s.data.map Char.toLower)

/-- `Array.prototype.join(sep)`: empty list gives the empty string. -/
def joinSep (sep : String) : List String → String
  | [] => ""
  | [x] => x
  | x :: xs => x ++ sep ++ joinSep sep xs

/-- The two-space indentation unit repeated `indent` times. -/
def spacesFor : Nat → String
  | 0 => ""
  | n + 1 => spacesFor n ++ "  "

/-- `part.charAt(0).toUpperCase() + part.slice(1)`: upper-case only the first
character of a segment, keep the rest unchanged; empty segment stays empty. -/
def titleCaseSegment (part : String) : String :=
  match part.data with
  | [] => ""
  | c :: cs => String.mk (Char.toUpper c :: cs)

/-- `String.prototype.split(sep)` for a one-character separator: splitting the
empty string yields `[""]`, and every separator occurrence opens a new
segment. -/
def splitOnChar (c : Char) : List Char → List (List Char)
  | [] => [[]]
  | x :: xs =>
    let r := splitOnChar c xs
    if x = c then [] :: r
    else
      match r with
      | [] => [[x]]
      | h :: t => (x :: h) :: t

/-- The regular-expression replace `path.replace` of the leading-run pattern by the empty string: remove the
five characters `/api/` when they are a leading run, otherwise leave the
string unchanged. -/
def dropApiLead (s : String) : String :=
  if s.data.take 5 = ['/', 'a', 'p', 'i', '/'] then String.mk (s.data.drop 5) else s

/-- The shared name-derivation pipeline of `generateTypeName` and
`pathToFunctionName` (the source duplicates this body in both functions):
strip a leading `/api/`, turn every `/` into `_`, delete all brace
characters, split on `_`, title-case each segment and concatenate. -/
def deriveFragment (path : String) : String :=
  let separated := (dropApiLead path).data.map (fun c => if c = '/' then '_' else c)
  let unbraced := separated.filter (fun c => !(c = lbrace || c = rbrace))
  let segments := splitOnChar '_' unbraced
  String.join (segments.map (fun seg => titleCaseSegment (String.mk seg)))

/-- `generateTypeName(path, suffix)` from the source. -/
def generateTypeName (path suffix : String) : String :=
  deriveFragment path ++ suffix

/-- `pathToFunctionName(path)` from the source (identical pipeline, no
suffix appended). -/
def pathToFunctionName (path : String) : String :=
  deriveFragment path

/-- The name fragment as the specification words it, step by step: strip a
leading `/api/` prefix if present, replace every `/` with a separator,
strip `\x7b` and `\x7d` while keeping the enclosed parameter name, split on
the separator, upper-case only the first character of each segment leaving
the rest unchanged, and concatenate. -/
def specDerivedFragment (path : String) : String :=
  let afterStrip := if path.data.take 5 = ['/', 'a', 'p', 'i', '/'] then path.data.drop 5 else path.data
  let separated := afterStrip.map (fun c => if c = '/' then '_' else c)
  let unbraced := separated.filter (fun c => !(c = lbrace || c = rbrace))
  let segments := splitOnChar '_' unbraced
  String.join (segments.map (fun seg => titleCaseSegment (String.mk seg)))

/-- Membership in the supported method set `{get, post, put, patch, delete}`
of handler generation (compared against the lower-cased method). -/
def isSupportedMethod (m : String) : Bool :=
  m == "get" || m == "post" || m == "put" || m == "patch" || m == "delete"

/-- Whether a rendered type text begins with a left brace
(`itemType.startsWith` applied to the left brace). -/
def startsWithLbrace (s : String) : Bool :=
  match s.data with
  | c :: _ => c = lbrace
  | [] => false

mutual

/-- `jsonToTypeScript(value, indent)` from the source: render a JSON sample
value as TypeScript type text.  `null` gives `null`; an empty array gives
`any[]`; a non-empty array renders only its first element's type and wraps
it; an empty object gives `Record<string, any>`; a non-empty object renders
one line per field in enumeration order, recursing at `indent + 1`;
primitives give their type names; anything else gives `any`. -/
def jsonToTypeScript (value : Json) (indent : Nat) : String :=
  match value with
  | .null => "null"
  | .arr .nil => "any[]"
  | .arr (.cons x _) =>
    let itemType := jsonToTypeScript x indent
    if startsWithLbrace itemType then itemType ++ "[]"
    else "(" ++ itemType ++ ")[]"
  | .obj .nil => "Record<string, any>"
  | .obj (.cons k v tl) =>
    "\x7b\n" ++ joinSep "\n" (objProps (.cons k v tl) indent) ++ "\n" ++ spacesFor indent ++ "\x7d"
  | .str _ => "string"
  | .num _ => "number"
  | .bool _ => "boolean"
  | .undefined => "any"

/-- The per-field lines of an object rendering: the spaces, two more spaces,
the key, a colon-space, then `jsonToTypeScript(val, indent + 1)`, in field
order. -/
def objProps (fields : JsonFields) (indent : Nat) : List String :=
  match fields with
  | .nil => []
  | .cons k v tl =>
    (spacesFor indent ++ "  " ++ k ++ ": " ++ jsonToTypeScript v (indent + 1)) :: objProps tl indent

end

/-- One hexadecimal digit, for JSON string escapes of control characters. -/
def hexDigit (n : Nat) : Char :=
  if n < 10 then Char.ofNat (48 + n) else Char.ofNat (87 + n)

/-- The JSON escape of one character inside a quoted string, per
`JSON.stringify`: quote, backslash, the named control escapes, and a
`\u00XX` escape for the remaining control characters. -/
def escapeJsonChar (c : Char) : List Char :=
  if c = '"' then ['\\', '"']
  else if c = '\\' then ['\\', '\\']
  else if c = '\n' then ['\\', 'n']
  else if c = '\r' then ['\\', 'r']
  else if c = '\t' then ['\\', 't']
  else if c = Char.ofNat 8 then ['\\', 'b']
  else if c = Char.ofNat 12 then ['\\', 'f']
  else if c.toNat < 32 then
    ['\\', 'u', '0', '0', hexDigit (c.toNat / 16), hexDigit (c.toNat % 16)]
  else [c]

/-- A JSON string literal with its surrounding quotes, per `JSON.stringify`. -/
def quoteJson (s : String) : String :=
  String.mk ('"' :: List.flatten (s.data.map escapeJsonChar) ++ ['"'])

/-- The indentation emitted by `JSON.stringify(v, null, gap)` at nesting
`depth`: `gap * depth` spaces. -/
def padFor (gap depth : Nat) : String :=
  String.mk (List.replicate (gap * depth) ' ')

mutual

/-- `JSON.stringify(value, null, gap)` at nesting `depth`, for the value
kinds the generator can meet.  `undefined` stringifies to no string at all
(`none`), which a template literal then renders as the text `undefined`. -/
def jsonStringify (v : Json) (gap depth : Nat) : Option String :=
  match v with
  | .undefined => none
  | .null => some "null"
  | .bool b => some (if b then "true" else "false")
  | .num n => some (toString n)
  | .str s => some (quoteJson s)
  | .arr .nil => some "[]"
  | .arr (.cons x tl) =>
    some ("[\n" ++ joinSep ",\n" (stringifyItems (.cons x tl) gap (depth + 1))
      ++ "\n" ++ padFor gap depth ++ "]")
  | .obj .nil => some "\x7b\x7d"
  | .obj (.cons k x tl) =>
    match stringifyProps (.cons k x tl) gap (depth + 1) with
    | [] => some "\x7b\x7d"
    | p :: ps =>
      some ("\x7b\n" ++ joinSep ",\n" (p :: ps) ++ "\n" ++ padFor gap depth ++ "\x7d")

/-- Array elements under `JSON.stringify`: an element that stringifies to
nothing (an `undefined` element) is rendered as `null`. -/
def stringifyItems (xs : JsonList) (gap depth : Nat) : List String :=
  match xs with
  | .nil => []
  | .cons x tl =>
    (padFor gap depth ++ Option.getD (jsonStringify x gap depth) "null")
      :: stringifyItems tl gap depth

/-- Object properties under `JSON.stringify`: a property whose value
stringifies to nothing (an `undefined` value) is skipped. -/
def stringifyProps (fs : JsonFields) (gap depth : Nat) : List String :=
  match fs with
  | .nil => []
  | .cons k v tl =>
    match jsonStringify v gap depth with
    | none => stringifyProps tl gap depth
    | some s => (padFor gap depth ++ quoteJson k ++ ": " ++ s) :: stringifyProps tl gap depth

end

/-- A `\w` character of JavaScript regular expressions. -/
def isWordChar (c : Char) : Bool :=
  c.isAlpha || c.isDigit || c = '_'

/-- The global replace `path.replace` of every brace-delimited word by a colon and the word on the character
list of a path: each occurrence of a brace-delimited non-empty word becomes
a colon followed by the word, scanning left to right and resuming after each
replacement.  The scan consumes at least one character per step, so a fuel
of the input length always suffices; the fuel only makes the recursion
structural. -/
def convertParamsFuel : Nat → List Char → List Char
  | 0, l => l
  | _ + 1, [] => []
  | fuel + 1, c :: rest =>
    if c = lbrace then
      match rest.dropWhile isWordChar with
      | d :: tail =>
        if d = rbrace && !(rest.takeWhile isWordChar).isEmpty then
          ':' :: (rest.takeWhile isWordChar ++ convertParamsFuel fuel tail)
        else c :: convertParamsFuel fuel rest
      | [] => c :: convertParamsFuel fuel rest
    else c :: convertParamsFuel fuel rest

/-- `pathWithParams` from the source: `{id}` placeholders rewritten to `:id`. -/
def convertPathParams (s : String) : String :=
  String.mk (convertParamsFuel s.data.length s.data)

/-- `String.prototype.includes` for a one-character needle. -/
def hasChar (s : String) (c : Char) : Bool :=
  s.data.any (fun x => x = c)

/-- The includes-check of the source against the list of the three
body-carrying methods post, put and patch. -/
def isBodyMethod (m : String) : Bool :=
  m == "post" || m == "put" || m == "patch"

/-- One endpoint descriptor after the destructuring
`const { method, path, response, statusCode = 200, requestBody } = api`:
absent `requestBody`/`response` surface as `Json.undefined`, and the
`statusCode` default of 200 is already applied. -/
structure Api where
  method : String
  path : String
  requestBody : Json
  response : Json
  statusCode : Int

/-- The callback of `apis.map(...)` in `generateHandlers`: the handler text
for one endpoint, or nothing when the lower-cased method is outside
get/post/put/patch/delete (the callback then returns `undefined`, which
`join` later renders as the empty string). -/
def handlerSnippet (api : Api) : Option String :=
  let methodLower := toLowerStr api.method
  let pathWithParams := convertPathParams api.path
  if methodLower = "get" then
    if hasChar api.path lbrace || hasChar api.path ':' then
      some ("  // " ++ api.method ++ " " ++ api.path
        ++ "\n  http." ++ methodLower ++ "(\x27" ++ pathWithParams
        ++ "\x27, (\x7b params \x7d) => \x7b\n    return HttpResponse.json("
        ++ Option.getD (jsonStringify api.response 2 0) "undefined"
        ++ ")\n  \x7d)")
    else
      some ("  // " ++ api.method ++ " " ++ api.path
        ++ "\n  http." ++ methodLower ++ "(\x27" ++ api.path
        ++ "\x27, () => \x7b\n    return HttpResponse.json("
        ++ Option.getD (jsonStringify api.response 2 0) "undefined"
        ++ ")\n  \x7d)")
  else if isBodyMethod methodLower then
    let bodyType := if api.requestBody.truthy then "as " ++ generateTypeName api.path "Request" else ""
    some ("  // " ++ api.method ++ " " ++ api.path
      ++ "\n  http." ++ methodLower ++ "(\x27" ++ pathWithParams
      ++ "\x27, async (\x7b params, request \x7d) => \x7b\n    "
      ++ (if api.requestBody.truthy then "const body = await request.json() " ++ bodyType else "")
      ++ "\n    return HttpResponse.json(\n      "
      ++ Option.getD (jsonStringify api.response 6 0) "undefined"
      ++ ",\n      \x7b status: " ++ toString api.statusCode ++ " \x7d\n    )\n  \x7d)")
  else if methodLower = "delete" then
    some ("  // " ++ api.method ++ " " ++ api.path
      ++ "\n  http." ++ methodLower ++ "(\x27" ++ pathWithParams
      ++ "\x27, (\x7b params \x7d) => \x7b\n    return HttpResponse.json(\n      "
      ++ Option.getD (jsonStringify api.response 6 0) "undefined"
      ++ ",\n      \x7b status: " ++ toString api.statusCode ++ " \x7d\n    )\n  \x7d)")
  else none

/-- `generateHandlers(apis)` from the source: the import line, a comment,
and the handler snippets joined by `,\n\n` inside the exported array. -/
def generateHandlers (apis : List Api) : String :=
  "import \x7b http, HttpResponse \x7d from \x27msw\x27\n\n"
    ++ "// Auto-generated handlers from API specification\nexport const handlers = [\n"
    ++ joinSep ",\n\n" (apis.map (fun a => Option.getD (handlerSnippet a) ""))
    ++ "\n]\n"

/-- `types.has(name)` on the insertion-ordered Named Type Table. -/
def hasKey (types : List (String × Json)) (k : String) : Bool :=
  (List.lookup k types).isSome

/-- The body of the first `apis.forEach` in `generateTypes`: register the
request type (only for a truthy `requestBody` on a post/put/patch method)
and then the response type, each only when its derived name is not already
present. -/
def registerTypes (types : List (String × Json)) (api : Api) : List (String × Json) :=
  let types :=
    if api.requestBody.truthy && isBodyMethod (toLowerStr api.method) then
      let requestTypeName := generateTypeName api.path "Request"
      if hasKey types requestTypeName then types else types ++ [(requestTypeName, api.requestBody)]
    else types
  let responseTypeName := generateTypeName api.path "Response"
  if hasKey types responseTypeName then types else types ++ [(responseTypeName, api.response)]

/-- The Named Type Table of a generation run: derived name to sample value,
in insertion order, first write wins. -/
def buildTypeTable (apis : List Api) : List (String × Json) :=
  List.foldl registerTypes [] apis

/-- One declaration of the type-declarations document: a `type` alias for an
array sample, an `interface` otherwise. -/
def renderTypeDecl (typeName : String) (value : Json) : String :=
  let typeScript := jsonToTypeScript value 0
  if value.isArr then "export type " ++ typeName ++ " = " ++ typeScript ++ "\n\n"
  else "export interface " ++ typeName ++ " " ++ typeScript ++ "\n\n"

/-- One line of the `ApiEndpoints` interface for one endpoint: lower-cased
method plus path fragment, a `body` parameter of the derived request type
exactly when `requestBody` is truthy, returning a promise of the derived
response type. -/
def endpointEntry (api : Api) : String :=
  let requestTypeName := generateTypeName api.path "Request"
  let responseTypeName := generateTypeName api.path "Response"
  let functionName := pathToFunctionName api.path
  if api.requestBody.truthy then
    "  " ++ toLowerStr api.method ++ functionName ++ ": (body: " ++ requestTypeName
      ++ ") => Promise<" ++ responseTypeName ++ ">\n"
  else
    "  " ++ toLowerStr api.method ++ functionName ++ ": () => Promise<" ++ responseTypeName ++ ">\n"

/-- `generateTypes(apis)` from the source: the header, one rendered
declaration per Named Type Table entry in insertion order, then the
`ApiEndpoints` interface with one line per endpoint in input order. -/
def generateTypes (apis : List Api) : String :=
  "// Auto-generated TypeScript types from API specification\n\n"
    ++ String.join ((buildTypeTable apis).map (fun p => renderTypeDecl p.1 p.2))
    ++ "// API function types\nexport interface ApiEndpoints \x7b\n"
    ++ String.join (apis.map endpointEntry)
    ++ "\x7d\n"

/-- The input validation of `main`: `if (!spec.apis || !Array.isArray(spec.apis))
throw new Error(...)`; this is the only validation the generator performs on
the parsed specification object. -/
def checkSpec (spec : Json) : Except String Json :=
  if !(getField spec "apis").truthy || !(getField spec "apis").isArr then
    Except.error "Invalid API specification format. Expected \x7b \"apis\": [...] \x7d"
  else Except.ok (getField spec "apis")

mutual

/-- The structural shape of a sample value: keep the kind of every node and
the keys of every object in order, erase the payloads of strings, numbers
and booleans.  Two values have the same structural shape exactly when their
canonical forms coincide. -/
def canon : Json → Json
  | .null => .null
  | .undefined => .undefined
  | .str _ => .str ""
  | .num _ => .num 0
  | .bool _ => .bool true
  | .arr xs => .arr (canonList xs)
  | .obj fs => .obj (canonFields fs)

/-- Canonical form of an array's elements. -/
def canonList : JsonList → JsonList
  | .nil => .nil
  | .cons x tl => .cons (canon x) (canonList tl)

/-- Canonical form of an object's fields: keys kept, values canonicalised. -/
def canonFields : JsonFields → JsonFields
  | .nil => .nil
  | .cons k v tl => .cons k (canon v) (canonFields tl)

end


set_option maxRecDepth 10000

/-! Helper lemmas. -/

/-- Joining a cons splits into the head and the joined tail. -/
theorem join_cons (x : String) (xs : List String) :
    String.join (x :: xs) = x ++ String.join xs := by
  apply String.ext
  simp [String.data_join]

/-- Joining an appended list splits into two joins. -/
theorem join_append (l1 l2 : List String) :
    String.join (l1 ++ l2) = String.join l1 ++ String.join l2 := by
  apply String.ext
  simp [String.data_join]

/-- A lookup that succeeds on a table is unchanged by appending entries. -/
theorem lookup_append_left (t l2 : List (String × Json)) (k : String)
    (h : (List.lookup k t).isSome = true) :
    List.lookup k (t ++ l2) = List.lookup k t := by
  induction t with
  | nil => simp [List.lookup] at h
  | cons p tl ih =>
    cases p with
    | mk a b =>
      by_cases hk : (k == a) = true
      · simp [List.lookup, hk]
      · simp only [Bool.not_eq_true] at hk
        simp only [List.lookup, hk, List.cons_append] at h ⊢
        exact ih h

/-- Conditionally appending one fresh entry does not change a lookup that
already succeeds. -/
theorem append_absent_keeps (t : List (String × Json)) (n : String) (v : Json) (k : String)
    (h : (List.lookup k t).isSome = true) :
    List.lookup k (if hasKey t n then t else t ++ [(n, v)]) = List.lookup k t := by
  by_cases hn : hasKey t n
  · simp [hn]
  · simp only [hn, if_false]
    exact lookup_append_left t [(n, v)] k h

/-- Processing one endpoint never changes a lookup that already succeeds on
the Named Type Table. -/
theorem registerTypes_keeps (t : List (String × Json)) (api : Api) (k : String)
    (h : (List.lookup k t).isSome = true) :
    List.lookup k (registerTypes t api) = List.lookup k t := by
  unfold registerTypes
  by_cases hg : (api.requestBody.truthy && isBodyMethod (toLowerStr api.method)) = true
  · simp only [hg, if_true]
    have h1 := append_absent_keeps t (generateTypeName api.path "Request") api.requestBody k h
    have h2 : (List.lookup k (if hasKey t (generateTypeName api.path "Request") then t
        else t ++ [(generateTypeName api.path "Request", api.requestBody)])).isSome = true := by
      rw [h1]; exact h
    rw [append_absent_keeps _ (generateTypeName api.path "Response") api.response k h2, h1]
  · simp only [Bool.not_eq_true] at hg
    simp only [hg, Bool.false_eq_true, if_false]
    exact append_absent_keeps t (generateTypeName api.path "Response") api.response k h

/-- Folding further endpoints over the table never changes a lookup that
already succeeds. -/
theorem foldl_registerTypes_keeps (post : List Api) (t : List (String × Json)) (k : String)
    (h : (List.lookup k t).isSome = true) :
    List.lookup k (List.foldl registerTypes t post) = List.lookup k t := by
  induction post generalizing t with
  | nil => rfl
  | cons a tl ih =>
    simp only [List.foldl_cons]
    have h1 := registerTypes_keeps t a k h
    have h2 : (List.lookup k (registerTypes t a)).isSome = true := by rw [h1]; exact h
    rw [ih (registerTypes t a) h2, h1]

/-- A derived request name never coincides with a derived response name:
their final characters differ. -/
theorem req_ne_resp (f1 f2 : String) : f1 ++ "Request" ≠ f2 ++ "Response" := by
  intro h
  have hd : (f1 ++ "Request").data = (f2 ++ "Response").data := by rw [h]
  rw [String.data_append, String.data_append] at hd
  have hrev := congrArg List.reverse hd
  rw [List.reverse_append, List.reverse_append] at hrev
  rw [show ("Request" : String).data = ['R','e','q','u','e','s','t'] from rfl] at hrev
  rw [show ("Response" : String).data = ['R','e','s','p','o','n','s','e'] from rfl] at hrev
  simp at hrev

mutual

/-- Rendering a canonicalised value gives the same TypeScript text as
rendering the value itself: the inferencer only reads structure. -/
theorem jsonToTypeScript_canon (v : Json) (i : Nat) :
    jsonToTypeScript (canon v) i = jsonToTypeScript v i :=
  match v with
  | .null => rfl
  | .undefined => rfl
  | .str _ => rfl
  | .num _ => rfl
  | .bool _ => rfl
  | .arr .nil => rfl
  | .arr (.cons x tl) => by
    simp only [canon, canonList, jsonToTypeScript]
    rw [jsonToTypeScript_canon x i]
  | .obj .nil => rfl
  | .obj (.cons k x tl) => by
    simp only [canon, canonFields, jsonToTypeScript]
    rw [show objProps (.cons k (canon x) (canonFields tl)) i
        = objProps (canonFields (.cons k x tl)) i from rfl]
    rw [objProps_canon (.cons k x tl) i]

/-- Field lines of a canonicalised object equal those of the object. -/
theorem objProps_canon (fs : JsonFields) (i : Nat) :
    objProps (canonFields fs) i = objProps fs i :=
  match fs with
  | .nil => rfl
  | .cons k v tl => by
    simp only [canonFields, objProps]
    rw [jsonToTypeScript_canon v (i + 1), objProps_canon tl i]

end

/-! Claim theorems. -/

/-- Claim C1: for every non-empty array sample the inferencer returns the
array type built from the FIRST element's inferred type only — the result
does not depend on the later elements — the empty array gives the generic
`any[]` type, and the mixed array `[1, 2, "x"]` infers to the
array-of-number type. -/
theorem c1_array_inference_first_element_only (x : Json) (rest1 rest2 : JsonList) (i : Nat) :
    jsonToTypeScript (.arr (.cons x rest1)) i = jsonToTypeScript (.arr (.cons x rest2)) i
    ∧ jsonToTypeScript (.arr .nil) i = "any[]"
    ∧ jsonToTypeScript (.arr (.cons (.num 1) (.cons (.num 2) (.cons (.str "x") .nil)))) 0
        = "(number)[]" := by
  refine ⟨?_, rfl, by decide⟩
  simp only [jsonToTypeScript]

/-- Claim C2: the derived name fragment is computed by stripping a leading
`/api/`, replacing `/` by a separator, deleting braces while keeping the
parameter name, splitting, upper-casing only each segment's first character,
and concatenating; `/api/users` gives exactly `Users` and `/api/users/{id}`
gives exactly `UsersId`. -/
theorem c2_name_derivation (path suffix : String) :
    pathToFunctionName path = specDerivedFragment path
    ∧ generateTypeName path suffix = specDerivedFragment path ++ suffix
    ∧ pathToFunctionName "/api/users" = "Users"
    ∧ pathToFunctionName "/api/users/\x7bid\x7d" = "UsersId" := by
  have hmain : ∀ p, deriveFragment p = specDerivedFragment p := by
    intro p
    unfold deriveFragment specDerivedFragment dropApiLead
    by_cases h : p.data.take 5 = ['/', 'a', 'p', 'i', '/']
    · simp [h]
    · simp [h]
  exact ⟨hmain path, by rw [generateTypeName, hmain path], by decide, by decide⟩

/-- Claim C7: the empty object infers to the generic open mapping type
`Record<string, any>`; a non-empty object infers to an ordered record with
one field line per key in enumeration order, each field's type obtained by
recursing into its value at the next nesting depth; `{"a": 1, "b": "x"}`
gives field `a: number` then `b: string` in that order. -/
theorem c7_object_inference (k : String) (v : Json) (fs : JsonFields) (i : Nat) :
    jsonToTypeScript (.obj .nil) i = "Record<string, any>"
    ∧ objProps (.cons k v fs) i
        = (spacesFor i ++ "  " ++ k ++ ": " ++ jsonToTypeScript v (i + 1)) :: objProps fs i
    ∧ jsonToTypeScript (.obj (.cons k v fs)) i
        = "\x7b\n" ++ joinSep "\n" (objProps (.cons k v fs) i) ++ "\n" ++ spacesFor i ++ "\x7d"
    ∧ jsonToTypeScript (.obj (.cons "a" (.num 1) (.cons "b" (.str "x") .nil))) 0
        = "\x7b\n  a: number\n  b: string\n\x7d" := by
  refine ⟨rfl, ?_, ?_, by decide⟩
  · simp only [objProps]
  · simp only [jsonToTypeScript]

/-- Claim C9: type inference depends only on the structural shape of the
sample (kinds, keys in order, array shapes), never on the primitive
payloads: values with equal canonical forms render identically at every
nesting depth. -/
theorem c9_inference_structure_only (v w : Json) (i : Nat) (h : canon v = canon w) :
    jsonToTypeScript v i = jsonToTypeScript w i := by
  rw [← jsonToTypeScript_canon v i, ← jsonToTypeScript_canon w i, h]

/-- Witness for C9: two objects with the same shape but different numbers
and strings infer to the same record type. -/
theorem c9_inference_structure_only_witness :
    canon (Json.obj (.cons "a" (.num 1) (.cons "b" (.str "x") .nil)))
      = canon (Json.obj (.cons "a" (.num 42) (.cons "b" (.str "hello") .nil)))
    ∧ jsonToTypeScript (Json.obj (.cons "a" (.num 1) (.cons "b" (.str "x") .nil))) 0
      = jsonToTypeScript (Json.obj (.cons "a" (.num 42) (.cons "b" (.str "hello") .nil))) 0 :=
  ⟨rfl, c9_inference_structure_only _ _ 0 rfl⟩

/-- For one path the derived response name never equals the derived request
name. -/
theorem resp_beq_req_false (p : String) :
    (generateTypeName p "Response" == generateTypeName p "Request") = false :=
  beq_eq_false_iff_ne.mpr (fun he => req_ne_resp (deriveFragment p) (deriveFragment p) he.symm)

/-- The Named Type Table produced by a single endpoint, in closed form. -/
theorem registerTypes_nil (api : Api) :
    registerTypes [] api =
      if api.requestBody.truthy && isBodyMethod (toLowerStr api.method) then
        [(generateTypeName api.path "Request", api.requestBody),
         (generateTypeName api.path "Response", api.response)]
      else [(generateTypeName api.path "Response", api.response)] := by
  unfold registerTypes
  split
  · simp only [hasKey, List.lookup, Option.isSome, if_false, List.nil_append]
    rw [if_neg (by rw [resp_beq_req_false api.path]; exact Bool.false_ne_true)]
    rfl
  · rfl

/-- Looking up the request name in a table holding only the response entry
fails. -/
theorem lookup_req_single (p : String) (resp : Json) :
    List.lookup (generateTypeName p "Request")
      [(generateTypeName p "Response", resp)] = none := by
  have h : (generateTypeName p "Request" == generateTypeName p "Response") = false :=
    beq_eq_false_iff_ne.mpr (req_ne_resp (deriveFragment p) (deriveFragment p))
  simp [List.lookup, h]

/-- Looking up the response name in a table holding only the response entry
yields that entry. -/
theorem lookup_resp_single (p : String) (resp : Json) :
    List.lookup (generateTypeName p "Response")
      [(generateTypeName p "Response", resp)] = some resp := by
  simp [List.lookup]

/-- Looking up the response name behind a request entry yields the response
entry. -/
theorem lookup_resp_after_req (p : String) (rb resp : Json) :
    List.lookup (generateTypeName p "Response")
      [(generateTypeName p "Request", rb), (generateTypeName p "Response", resp)]
      = some resp := by
  simp [List.lookup, resp_beq_req_false p]

/-- Claim C3: the Named Type Table dedupes by derived name with
first-write-wins: once a name resolves in the table built from a list of
endpoints, processing any further endpoints never changes what it resolves
to (so a later registration under the same name is silently dropped). -/
theorem c3_type_table_first_write_wins (pre post : List Api) (k : String)
    (h : hasKey (buildTypeTable pre) k = true) :
    List.lookup k (buildTypeTable (pre ++ post)) = List.lookup k (buildTypeTable pre) := by
  unfold hasKey at h
  unfold buildTypeTable
  rw [List.foldl_append]
  exact foldl_registerTypes_keeps post (List.foldl registerTypes [] pre) k h

/-- Witness for C3: two endpoints with the same path collide on
`UsersResponse`; the table keeps the first endpoint's response sample. -/
theorem c3_type_table_first_write_wins_witness :
    hasKey (buildTypeTable [Api.mk "GET" "/api/users" Json.undefined (Json.num 1) 200])
        "UsersResponse" = true
    ∧ List.lookup "UsersResponse"
        (buildTypeTable ([Api.mk "GET" "/api/users" Json.undefined (Json.num 1) 200]
          ++ [Api.mk "DELETE" "/api/users" Json.undefined (Json.str "second") 200]))
      = List.lookup "UsersResponse"
        (buildTypeTable [Api.mk "GET" "/api/users" Json.undefined (Json.num 1) 200])
    ∧ List.lookup "UsersResponse"
        (buildTypeTable [Api.mk "GET" "/api/users" Json.undefined (Json.num 1) 200])
      = some (Json.num 1) :=
  ⟨by decide,
    c3_type_table_first_write_wins
      [Api.mk "GET" "/api/users" Json.undefined (Json.num 1) 200]
      [Api.mk "DELETE" "/api/users" Json.undefined (Json.str "second") 200]
      "UsersResponse" (by decide),
    by rfl⟩

/-- Counterexample to claim C6: the path `/api` does not reduce to the empty
string — the stripped run is `/api/` with its trailing slash, which `/api`
lacks — so its derived request name is `ApiRequest`, not `Request`. -/
theorem c6_api_without_trailing_slash :
    generateTypeName "/api" "Request" = "ApiRequest"
    ∧ generateTypeName "/api" "Request" ≠ "Request"
    ∧ generateTypeName "/api" "Response" = "ApiResponse" :=
  ⟨by decide, by decide, by decide⟩

/-- Claim C6 as amended: for every path that reduces to the empty string
after prefix stripping (such as `/api/`, though not `/api`, which keeps its
text because the stripped run requires the trailing slash), the name
fragment is the empty string and the derived type names are exactly
`Request` and `Response`; nothing fails. -/
theorem c6_empty_fragment_degenerate_names (path : String)
    (h : dropApiLead path = "") :
    pathToFunctionName path = ""
    ∧ generateTypeName path "Request" = "Request"
    ∧ generateTypeName path "Response" = "Response" := by
  have hfrag : deriveFragment path = "" := by
    unfold deriveFragment
    rw [h]
    decide
  refine ⟨hfrag, ?_, ?_⟩
  · unfold generateTypeName
    rw [hfrag]
    decide
  · unfold generateTypeName
    rw [hfrag]
    decide

/-- Witness for C6: the path `/api/` strips to the empty string and derives
the degenerate names. -/
theorem c6_empty_fragment_degenerate_names_witness :
    dropApiLead "/api/" = ""
    ∧ (pathToFunctionName "/api/" = ""
      ∧ generateTypeName "/api/" "Request" = "Request"
      ∧ generateTypeName "/api/" "Response" = "Response") :=
  ⟨by decide, c6_empty_fragment_degenerate_names "/api/" (by decide)⟩

/-- Counterexample to claim C4: an endpoint whose `response` field is absent
passes the only input validation the generator performs (the `apis` array
check), its handler is generated with the literal text `undefined` as the
canned body, and its response type is registered and rendered as `any` — no
hard input-validation error is raised anywhere. -/
theorem c4_missing_response_not_rejected :
    checkSpec (Json.obj (.cons "apis"
        (Json.arr (.cons (Json.obj (.cons "method" (Json.str "GET")
          (.cons "path" (Json.str "/api/users") .nil))) .nil)) .nil))
      = Except.ok (Json.arr (.cons (Json.obj (.cons "method" (Json.str "GET")
          (.cons "path" (Json.str "/api/users") .nil))) .nil))
    ∧ handlerSnippet (Api.mk "GET" "/api/users" Json.undefined Json.undefined 200)
      = some "  // GET /api/users\n  http.get(\x27/api/users\x27, () => \x7b\n    return HttpResponse.json(undefined)\n  \x7d)"
    ∧ generateTypes [Api.mk "GET" "/api/users" Json.undefined Json.undefined 200]
      = "// Auto-generated TypeScript types from API specification\n\nexport interface UsersResponse any\n\n// API function types\nexport interface ApiEndpoints \x7b\n  getUsers: () => Promise<UsersResponse>\n\x7d\n" :=
  ⟨by rfl, by decide, by decide⟩

/-- Claim C4 as amended: absence of `response` is NOT a validation failure —
the only input validation is that the specification carries an `apis` array,
which passes regardless of the endpoints' contents; an endpoint with an
absent `response` still registers its derived response name, bound to the
undefined sample, which renders as the `any` type. -/
theorem c4_missing_response_flows_through (fs : JsonFields) (xs : JsonList) (api : Api)
    (hf : findField fs "apis" = Json.arr xs) (hr : api.response = Json.undefined) :
    checkSpec (Json.obj fs) = Except.ok (Json.arr xs)
    ∧ List.lookup (generateTypeName api.path "Response") (buildTypeTable [api])
        = some Json.undefined
    ∧ jsonToTypeScript Json.undefined 0 = "any" := by
  refine ⟨?_, ?_, rfl⟩
  · have hga : getField (Json.obj fs) "apis" = Json.arr xs := by
      simpa [getField] using hf
    unfold checkSpec
    rw [hga]
    rfl
  · have htab : buildTypeTable [api] = registerTypes [] api := rfl
    rw [htab, registerTypes_nil api]
    by_cases hg : (api.requestBody.truthy && isBodyMethod (toLowerStr api.method)) = true
    · rw [if_pos hg, ← hr]
      exact lookup_resp_after_req api.path api.requestBody api.response
    · rw [if_neg hg, ← hr]
      exact lookup_resp_single api.path api.response

/-- Witness for C4: a one-endpoint specification without `response`. -/
theorem c4_missing_response_flows_through_witness :
    findField (.cons "apis" (Json.arr .nil) .nil) "apis" = Json.arr .nil
    ∧ (Api.mk "GET" "/api/users" Json.undefined Json.undefined 200).response = Json.undefined
    ∧ (checkSpec (Json.obj (.cons "apis" (Json.arr .nil) .nil)) = Except.ok (Json.arr .nil)
      ∧ List.lookup (generateTypeName "/api/users" "Response")
          (buildTypeTable [Api.mk "GET" "/api/users" Json.undefined Json.undefined 200])
        = some Json.undefined
      ∧ jsonToTypeScript Json.undefined 0 = "any") :=
  ⟨by rfl, by rfl,
    c4_missing_response_flows_through (.cons "apis" (Json.arr .nil) .nil) .nil
      (Api.mk "GET" "/api/users" Json.undefined Json.undefined 200) (by rfl) (by rfl)⟩

/-- Counterexample to claim C5: an `OPTIONS` endpoint carrying a
`requestBody` emits no handler, and its response type is registered — but
its request type is NOT registered in the type table, because request-type
registration is gated on post/put/patch; the claim's assertion that both
response and request types are still registered fails. -/
theorem c5_request_type_not_registered_for_options :
    handlerSnippet (Api.mk "OPTIONS" "/api/users"
        (Json.obj (.cons "name" (Json.str "x") .nil))
        (Json.obj (.cons "id" (Json.num 1) .nil)) 200) = none
    ∧ List.lookup "UsersResponse"
        (buildTypeTable [Api.mk "OPTIONS" "/api/users"
          (Json.obj (.cons "name" (Json.str "x") .nil))
          (Json.obj (.cons "id" (Json.num 1) .nil)) 200])
      = some (Json.obj (.cons "id" (Json.num 1) .nil))
    ∧ List.lookup "UsersRequest"
        (buildTypeTable [Api.mk "OPTIONS" "/api/users"
          (Json.obj (.cons "name" (Json.str "x") .nil))
          (Json.obj (.cons "id" (Json.num 1) .nil)) 200])
      = none :=
  ⟨by decide, by rfl, by rfl⟩

/-- Claim C5 as amended: for every endpoint whose lower-cased method is
outside get/post/put/patch/delete, handler generation emits no snippet and
raises no error, and type generation still registers the endpoint's
RESPONSE type — but its REQUEST type is never registered by that endpoint,
since request-type registration is gated on post/put/patch. -/
theorem c5_unsupported_method_silently_skipped (api : Api)
    (h : isSupportedMethod (toLowerStr api.method) = false) :
    handlerSnippet api = none
    ∧ List.lookup (generateTypeName api.path "Response") (buildTypeTable [api])
        = some api.response
    ∧ List.lookup (generateTypeName api.path "Request") (buildTypeTable [api])
        = none := by
  simp only [isSupportedMethod, Bool.or_eq_false_iff, beq_eq_false_iff_ne] at h
  obtain ⟨⟨⟨⟨h1, h2⟩, h3⟩, h4⟩, h5⟩ := h
  have hb : isBodyMethod (toLowerStr api.method) = false := by
    simp only [isBodyMethod, Bool.or_eq_false_iff, beq_eq_false_iff_ne]
    exact ⟨⟨h2, h3⟩, h4⟩
  have htab : buildTypeTable [api]
      = [(generateTypeName api.path "Response", api.response)] := by
    have h0 : buildTypeTable [api] = registerTypes [] api := rfl
    rw [h0, registerTypes_nil api, if_neg]
    rw [hb, Bool.and_false]
    exact Bool.false_ne_true
  refine ⟨?_, ?_, ?_⟩
  · unfold handlerSnippet
    rw [if_neg h1, if_neg (by rw [hb]; exact Bool.false_ne_true), if_neg h5]
  · rw [htab]
    exact lookup_resp_single api.path api.response
  · rw [htab]
    exact lookup_req_single api.path api.response

/-- Witness for C5: a `HEAD` endpoint is skipped by handler generation while
its response type is registered and its request type is not. -/
theorem c5_unsupported_method_silently_skipped_witness :
    isSupportedMethod (toLowerStr "HEAD") = false
    ∧ (handlerSnippet (Api.mk "HEAD" "/api/users" Json.undefined (Json.num 7) 200) = none
      ∧ List.lookup (generateTypeName "/api/users" "Response")
          (buildTypeTable [Api.mk "HEAD" "/api/users" Json.undefined (Json.num 7) 200])
        = some (Json.num 7)
      ∧ List.lookup (generateTypeName "/api/users" "Request")
          (buildTypeTable [Api.mk "HEAD" "/api/users" Json.undefined (Json.num 7) 200])
        = none) :=
  ⟨by decide,
    c5_unsupported_method_silently_skipped
      (Api.mk "HEAD" "/api/users" Json.undefined (Json.num 7) 200) (by decide)⟩

/-- Counterexample to claim C8: a `POST` endpoint whose `requestBody` is
present but explicitly `null` gets a parameter-less endpoint-map entry — the
entry's parameter is keyed on truthiness of `requestBody`, not presence. -/
theorem c8_null_requestBody_entry :
    endpointEntry (Api.mk "POST" "/api/users" Json.null (Json.obj .nil) 200)
      = "  postUsers: () => Promise<UsersResponse>\n"
    ∧ endpointEntry (Api.mk "POST" "/api/users" Json.null (Json.obj .nil) 200)
      ≠ "  postUsers: (body: UsersRequest) => Promise<UsersResponse>\n" :=
  ⟨by decide, by decide⟩

/-- Claim C8 as amended: every endpoint contributes one endpoint-map entry
inside the generated type-declarations document, named lower-cased method
followed by the path fragment; the entry takes the derived Request type as
its single `body` parameter exactly when `requestBody` is TRUTHY (present
and not `null`, `false`, `0` or the empty string), otherwise takes no
parameters, and returns the derived Response type wrapped in `Promise`. -/
theorem c8_endpoint_map_entry (apis1 apis2 : List Api) (api : Api) :
    ∃ u w, generateTypes (apis1 ++ api :: apis2)
      = u ++ (if api.requestBody.truthy then
            "  " ++ toLowerStr api.method ++ pathToFunctionName api.path ++ ": (body: "
              ++ generateTypeName api.path "Request" ++ ") => Promise<"
              ++ generateTypeName api.path "Response" ++ ">\n"
          else
            "  " ++ toLowerStr api.method ++ pathToFunctionName api.path ++ ": () => Promise<"
              ++ generateTypeName api.path "Response" ++ ">\n") ++ w := by
  refine ⟨"// Auto-generated TypeScript types from API specification\n\n"
      ++ String.join ((buildTypeTable (apis1 ++ api :: apis2)).map
          (fun p => renderTypeDecl p.1 p.2))
      ++ "// API function types\nexport interface ApiEndpoints \x7b\n"
      ++ String.join (apis1.map endpointEntry),
    String.join (apis2.map endpointEntry) ++ "\x7d\n", ?_⟩
  have he : endpointEntry api
      = (if api.requestBody.truthy then
          "  " ++ toLowerStr api.method ++ pathToFunctionName api.path ++ ": (body: "
            ++ generateTypeName api.path "Request" ++ ") => Promise<"
            ++ generateTypeName api.path "Response" ++ ">\n"
        else
          "  " ++ toLowerStr api.method ++ pathToFunctionName api.path ++ ": () => Promise<"
            ++ generateTypeName api.path "Response" ++ ">\n") := by
    unfold endpointEntry
    split
    · rfl
    · rfl
  unfold generateTypes
  rw [List.map_append, List.map_cons, join_append, join_cons, he]
  simp only [String.append_assoc]

/-- Counterexample to claim C10: a `GET` endpoint whose `requestBody` is
present but explicitly `null` does NOT get a body parameter in its
endpoint-map entry, because the entry is keyed on truthiness, not presence;
the claim's assertion that the entry still declares a body parameter
fails. -/
theorem c10_get_null_requestBody_entry :
    endpointEntry (Api.mk "GET" "/api/users" Json.null (Json.num 1) 200)
      = "  getUsers: () => Promise<UsersResponse>\n"
    ∧ endpointEntry (Api.mk "GET" "/api/users" Json.null (Json.num 1) 200)
      ≠ "  getUsers: (body: UsersRequest) => Promise<UsersResponse>\n" :=
  ⟨by decide, by decide⟩

/-- Claim C10 as amended: for every endpoint whose `requestBody` is TRUTHY
(present and not `null`, `false`, `0` or the empty string) while its method
is not post/put/patch, the endpoint-map entry still declares a `body`
parameter typed with the derived Request name, yet no declaration under
that Request name is registered by that endpoint: the request-type
registration step is method-gated but the endpoint-map step is not. -/
theorem c10_requestBody_without_body_method (api : Api)
    (ht : api.requestBody.truthy = true)
    (hm : isBodyMethod (toLowerStr api.method) = false) :
    endpointEntry api
      = "  " ++ toLowerStr api.method ++ pathToFunctionName api.path ++ ": (body: "
          ++ generateTypeName api.path "Request" ++ ") => Promise<"
          ++ generateTypeName api.path "Response" ++ ">\n"
    ∧ List.lookup (generateTypeName api.path "Request") (buildTypeTable [api])
        = none := by
  constructor
  · unfold endpointEntry
    rw [if_pos ht]
  · have htab : buildTypeTable [api]
        = [(generateTypeName api.path "Response", api.response)] := by
      have h0 : buildTypeTable [api] = registerTypes [] api := rfl
      rw [h0, registerTypes_nil api, if_neg]
      rw [hm, Bool.and_false]
      exact Bool.false_ne_true
    rw [htab]
    exact lookup_req_single api.path api.response

/-- Witness for C10: a `GET` endpoint with a truthy `requestBody` declares a
`body: UsersRequest` parameter while `UsersRequest` itself is never
registered. -/
theorem c10_requestBody_without_body_method_witness :
    (Api.mk "GET" "/api/users" (Json.obj (.cons "name" (Json.str "x") .nil))
        (Json.num 1) 200).requestBody.truthy = true
    ∧ isBodyMethod (toLowerStr (Api.mk "GET" "/api/users"
        (Json.obj (.cons "name" (Json.str "x") .nil)) (Json.num 1) 200).method) = false
    ∧ (endpointEntry (Api.mk "GET" "/api/users"
          (Json.obj (.cons "name" (Json.str "x") .nil)) (Json.num 1) 200)
        = "  " ++ toLowerStr "GET" ++ pathToFunctionName "/api/users" ++ ": (body: "
            ++ generateTypeName "/api/users" "Request" ++ ") => Promise<"
            ++ generateTypeName "/api/users" "Response" ++ ">\n"
      ∧ List.lookup (generateTypeName "/api/users" "Request")
          (buildTypeTable [Api.mk "GET" "/api/users"
            (Json.obj (.cons "name" (Json.str "x") .nil)) (Json.num 1) 200])
        = none) :=
  ⟨by decide, by decide,
    c10_requestBody_without_body_method
      (Api.mk "GET" "/api/users" (Json.obj (.cons "name" (Json.str "x") .nil))
        (Json.num 1) 200) (by decide) (by decide)⟩
